import Mathlib

/-!
Verification of the `use-api` token-lifecycle core (useAPI.ts) against its
natural-language specification.

The TypeScript source is shallowly embedded: JavaScript string-truthiness is
made explicit (`jsTruthy`, `jsOrElse`), storage is a record of the four
`localStorage`/`sessionStorage` keys, the `fetch` transport is a pure function
from requests to outcomes, and time (`Date.now() / 1000`) is an integer-second
timestamp (the strict/non-strict comparisons at issue are preserved exactly).
JWT decoding (`jwtDecode`) is an external collaborator and is passed in as a
function `String → Option TokenData`, `none` modelling a decode exception.
The `async-mutex` lock serializes the Coordinator's critical section, so
concurrent coordinator entries are modelled as a sequence of atomic
critical-section executions in an arbitrary order.
-/

namespace UseAPI

/-- JavaScript truthiness restricted to `string | null | undefined` values:
`null`, `undefined` and the empty string are falsy. -/
def jsTruthy : Option String → Bool
  | none => false
  | some s => !(s == "")

/-- JavaScript `a || b` on `string | null | undefined` values. -/
def jsOrElse (a b : Option String) : Option String :=
  if jsTruthy a then a else b

/-- JavaScript `String(x)` on a `string | null` value, as used by the
storage serializer (`{ stringify: String }`) and template literals:
`String(null) = "null"`. -/
def jsStr : Option String → String
  | some s => s
  | none => "null"

/-- Header-map lookup (JS object property read). -/
def hGet (h : List (String × String)) (k : String) : Option String :=
  (h.find? (fun p => p.1 == k)).map (fun p => p.2)

/-- Header-map update (JS object property assignment): overwrites an existing
key in place, appends a fresh key at the end. -/
def hSet (h : List (String × String)) (k v : String) : List (String × String) :=
  if h.any (fun p => p.1 == k) then
    h.map (fun p => if p.1 == k then (k, v) else p)
  else
    h ++ [(k, v)]

/-- Decoded JWT claims (`TokenData` in useAPI.ts): subject, issued-at,
expiry (integer seconds) and api scope. -/
structure TokenData where
  sub : String
  iat : Int
  exp : Int
  api : String
deriving Repr, DecidableEq

/-- Zero-valued sentinel claims `{ sub: '', iat: 0, exp: 0, api: '' }`. -/
def nullTokenData : TokenData := ⟨"", 0, 0, ""⟩

/-- Translation of `decode_token` (useAPI.ts): returns `jwtDecode(token)` when
the token is present, non-empty and decodes without throwing, and the zero
sentinel otherwise.  `jwtD` is the external `jwtDecode` collaborator, with
`none` modelling a thrown decode error. -/
def decode_token (jwtD : String → Option TokenData) : Option String → TokenData
  | none => nullTokenData
  | some t => if t = "" then nullTokenData else (jwtD t).getD nullTokenData

/-- Uppercase hexadecimal digit. -/
def hexDigit (n : Nat) : Char :=
  if n < 10 then Char.ofNat (48 + n) else Char.ofNat (55 + n)

/-- UTF-8 byte expansion of a unicode code point. -/
def utf8Bytes (n : Nat) : List Nat :=
  if n < 0x80 then [n]
  else if n < 0x800 then [0xC0 + n / 64, 0x80 + n % 64]
  else if n < 0x10000 then [0xE0 + n / 4096, 0x80 + (n / 64) % 64, 0x80 + n % 64]
  else [0xF0 + n / 262144, 0x80 + (n / 4096) % 64, 0x80 + (n / 64) % 64, 0x80 + n % 64]

/-- Percent-encoding of one byte. -/
def pctByte (b : Nat) : String :=
  String.mk ['%', hexDigit (b / 16), hexDigit (b % 16)]

/-- One character of `application/x-www-form-urlencoded` serialization:
alphanumerics and `*-._` pass through, space becomes `+`, everything else is
percent-encoded per UTF-8 byte. -/
def formEncodeChar (c : Char) : String :=
  if c.isAlphanum || c == '*' || c == '-' || c == '.' || c == '_' then
    String.singleton c
  else if c == ' ' then "+"
  else String.join ((utf8Bytes c.toNat).map pctByte)

/-- Form-encoding of one string. -/
def formEncodeStr (s : String) : String :=
  String.join (s.data.map formEncodeChar)

/-- Model of `URLSearchParams.toString()`: `k=v` pairs joined by `&`,
keys and values form-encoded. -/
def formEncode (ps : List (String × String)) : String :=
  String.intercalate "&" (ps.map (fun p => formEncodeStr p.1 ++ "=" ++ formEncodeStr p.2))

/-- Model of `URLSearchParams.get`: value of the first matching key. -/
def paramsGet (ps : List (String × String)) (k : String) : Option String :=
  (ps.find? (fun p => p.1 == k)).map (fun p => p.2)

/-- JSON-ish value universe for response bodies.  `jundef` models JavaScript
`undefined` (the synthesized `data` of a plain 204 response). -/
inductive JsVal where
  | jundef
  | jnull
  | jbool (b : Bool)
  | jnum (n : Int)
  | jstr (s : String)
  | jarr (xs : List JsVal)
  | jobj (fs : List (String × JsVal))
deriving Repr

/-- Field lookup inside a JSON object field list. -/
def jsLookup (fs : List (String × JsVal)) (k : String) : Option JsVal :=
  (fs.find? (fun p => p.1 == k)).map (fun p => p.2)

/-- Whether a value is JavaScript `undefined` (`typeof data !== 'undefined'`
guard of `validateOptional`). -/
def JsVal.isUndef : JsVal → Bool
  | .jundef => true
  | _ => false

/-- JavaScript `Array.isArray`. -/
def JsVal.isArr : JsVal → Bool
  | .jarr _ => true
  | _ => false

/-- Element list of a JSON array (empty for non-arrays). -/
def JsVal.elems : JsVal → List JsVal
  | .jarr xs => xs
  | _ => []

/-- Translation of `isAPIAuthTokens` (useAPI.ts): a JS object whose
`access_token` and `refresh_token` are strings and whose `token_type` is
exactly `'bearer'`.  Property access on `null` throws inside the predicate's
`try` and yields `false`; property access on other non-objects yields
`undefined`, also `false`. -/
def isAPIAuthTokens (v : JsVal) : Bool :=
  match v with
  | .jobj fs =>
    (match jsLookup fs "access_token" with | some (.jstr _) => true | _ => false)
    && (match jsLookup fs "refresh_token" with | some (.jstr _) => true | _ => false)
    && (match jsLookup fs "token_type" with | some (.jstr s) => s == "bearer" | _ => false)
  | _ => false

/-- Message of `new APIError(data.detail, code)` for a present `detail` value:
`Error(x)` stringifies a non-undefined message and leaves the message empty
for `undefined`.  Stringification of compound values is approximated
(only string details occur in this development's claims). -/
def errMsgOfDetailVal : JsVal → String
  | .jundef => ""
  | .jnull => "null"
  | .jbool b => if b then "true" else "false"
  | .jnum n => toString n
  | .jstr s => s
  | .jarr _ => ""
  | .jobj _ => "[object Object]"

/-- Message of `new APIError(data.detail, code)`: empty when the `detail`
property is absent (the `Error` constructor ignores `undefined`). -/
def errMsgOfDetail : Option JsVal → String
  | none => ""
  | some v => errMsgOfDetailVal v

/-- Message of the `TypeError` thrown by `data.detail` when `data` is `null`
(modelled after V8's wording). -/
def nullDetailMsg : String := "Cannot read properties of null (reading 'detail')"

/-- Result of evaluating `data.detail` where `data` is an arbitrary parsed
JSON value: throws on `null`/`undefined`, is `undefined` on other
non-objects, and is a field lookup on objects. -/
def dotDetail : JsVal → Except String (Option JsVal)
  | .jnull => .error nullDetailMsg
  | .jundef => .error "Cannot read properties of undefined (reading 'detail')"
  | .jobj fs => .ok (jsLookup fs "detail")
  | _ => .ok none

/-- Translation of the `APIError` class: message and status code
(−1 when no status was obtained). -/
structure APIError where
  message : String
  code : Int
deriving Repr, DecidableEq

/-- An HTTP request as dispatched to the `fetch` transport collaborator. -/
structure FetchRequest where
  url : String
  method : String
  headers : Option (List (String × String))
  body : Option String
deriving Repr, DecidableEq

/-- A transport response: status, status text, and the result of `json()`
(`Except.error` models a rejected body parse, carrying its message). -/
structure FetchResp where
  status : Int
  statusText : String
  json : Except String JsVal
deriving Repr

/-- Outcome of one `fetch` call: a response, or a network-level rejection. -/
inductive FetchOutcome where
  | resp (r : FetchResp)
  | reject (msg : String)
deriving Repr

/-- Model of `Response.ok`: status in the 200–299 range. -/
def respOk (s : Int) : Bool := decide (200 ≤ s) && decide (s ≤ 299)

/-- Translation of the `APIRequest` descriptor (useAPI.types.ts).  `params`
models the serialized `URLSearchParams` query string; the three validators
are the caller-supplied type predicates. -/
structure APIRequest where
  method : String
  url : String
  headers : Option (List (String × String))
  params : Option String
  body : Option String
  validate : Option (JsVal → Bool)
  validateOptional : Option (JsVal → Bool)
  validateList : Option (JsVal → Bool)

/-- Final request URL: `url + '?' + params.toString()` when params exist. -/
def finalUrl (o : APIRequest) : String :=
  match o.params with
  | some p => o.url ++ "?" ++ p
  | none => o.url

/-- The `fetch` call issued by `runRawRequest` for a descriptor. -/
def rawFetchRequest (o : APIRequest) : FetchRequest :=
  { url := finalUrl o, method := o.method, headers := o.headers, body := o.body }

/-- JavaScript `x || ''` on a `string | null | undefined` value. -/
def jsOrEmpty (o : Option String) : String :=
  if jsTruthy o then o.getD "" else ""

/-- Translation of `runRawRequest` (useAPI.ts): interprets the outcome of the
one `fetch` call for descriptor `o`.  `ctxAccess`/`ctxRefresh` are the hook's
`accessToken`/`refreshToken` closure values, used only to synthesize the body
of a 204 response from the token-validation endpoint.  Every error thrown
inside the `try` is re-wrapped by the `catch` as
`APIError(error.message, code)` where `code` is −1 before a status was
obtained and the response status afterwards; the re-wrap preserves message
and code, as modelled here. -/
def runRawRequest (ctxAccess ctxRefresh : Option String) (o : APIRequest)
    (outcome : FetchOutcome) : Except APIError (Int × JsVal) :=
  match outcome with
  | .reject msg => .error ⟨msg, -1⟩
  | .resp r =>
    let code := r.status
    let data? : Except APIError JsVal :=
      if code = 204 then
        if o.url = "/api/oauth2/token/" then
          .ok (.jobj [("access_token", .jstr (jsOrEmpty ctxAccess)),
                      ("refresh_token", .jstr (jsOrEmpty ctxRefresh)),
                      ("token_type", .jstr "bearer")])
        else .ok .jundef
      else
        match r.json with
        | .error m => .error ⟨m, code⟩
        | .ok d =>
          if respOk code then .ok d
          else
            match dotDetail d with
            | .error m => .error ⟨m, code⟩
            | .ok det => .error ⟨errMsgOfDetail det, code⟩
    match data? with
    | .error e => .error e
    | .ok data =>
      if (match o.validate with | some v => !(v data) | none => false) then
        .error ⟨"Response validation failed", code⟩
      else if (match o.validateOptional with
               | some v => !data.isUndef && !(v data)
               | none => false) then
        .error ⟨"Response validation failed", code⟩
      else if (match o.validateList with
               | some v => !data.isArr || !(data.elems.all v)
               | none => false) then
        .error ⟨"Response validation failed", code⟩
      else if decide (400 ≤ code) then
        .error ⟨r.statusText, code⟩
      else .ok (code, data)

/-- The two storage scopes (`localStorage` = durable, `sessionStorage` =
session) with their `access_token`/`refresh_token` keys; `none` models an
absent key. -/
structure Storage where
  lsAccess : Option String
  lsRefresh : Option String
  ssAccess : Option String
  ssRefresh : Option String
deriving Repr, DecidableEq

/-- Storage after `clear_tokens` (useAPI.ts): both scopes emptied. -/
def clearedStorage : Storage := ⟨none, none, none, none⟩

/-- Current access token: `accessTokenLS || accessTokenSS`, also the
Coordinator's re-read `localStorage.getItem || sessionStorage.getItem`. -/
def currentAccess (st : Storage) : Option String := jsOrElse st.lsAccess st.ssAccess

/-- Current refresh token: durable value first, session value as fallback. -/
def currentRefresh (st : Storage) : Option String := jsOrElse st.lsRefresh st.ssRefresh

/-- An access/refresh token pair as held by the Coordinator's result.
Either component may be a JavaScript `null` (the short-circuit path returns
the re-read raw storage values, typed by cast). -/
structure AuthPair where
  access_token : Option String
  refresh_token : Option String
deriving Repr, DecidableEq

/-- Token pair carried by a validated `APIAuthTokens` response body. -/
def extractPair (d : JsVal) : AuthPair :=
  match d with
  | .jobj fs =>
    ⟨(match jsLookup fs "access_token" with | some (.jstr s) => some s | _ => none),
     (match jsLookup fs "refresh_token" with | some (.jstr s) => some s | _ => none)⟩
  | _ => ⟨none, none⟩

/-- The Coordinator's `creds.get('remember') === 'true'` test. -/
def rememberOf (creds : List (String × String)) : Bool :=
  paramsGet creds "remember" == some "true"

/-- Persisting a token pair (steps after the Coordinator's fetch): durable
scope when remember, session scope otherwise; the storage serializer
stringifies the values. -/
def persist (st : Storage) (remember : Bool) (p : AuthPair) : Storage :=
  if remember then
    { st with lsAccess := some (jsStr p.access_token), lsRefresh := some (jsStr p.refresh_token) }
  else
    { st with ssAccess := some (jsStr p.access_token), ssRefresh := some (jsStr p.refresh_token) }

/-- The descriptor of the Coordinator's token POST. -/
def tokenAPIRequest (creds : List (String × String)) : APIRequest :=
  { method := "POST", url := "/api/oauth2/token/",
    headers := some [("Content-Type", "application/x-www-form-urlencoded")],
    params := none, body := some (formEncode creds),
    validate := some isAPIAuthTokens, validateOptional := none, validateList := none }

/-- The `fetch` call of the Coordinator's token POST. -/
def tokenFetchReq (creds : List (String × String)) : FetchRequest :=
  rawFetchRequest (tokenAPIRequest creds)

/-- Outcome of one Coordinator critical-section execution. -/
structure TokenResult where
  store : Storage
  result : Except APIError (Int × AuthPair)
  calls : List FetchRequest
deriving Repr

/-- Translation of `runTokenRequest` (useAPI.ts): the body of
`mutex.runExclusive`, executed atomically.  Re-reads the currently stored
tokens, decodes the access token, clears storage, short-circuits with the
re-read pair when its expiry is strictly in the future, performs the token
POST otherwise, and persists the resulting pair to the scope selected by the
`remember` credential field.  On failure of the POST the error propagates
with storage left cleared. -/
def runTokenRequest (jwtD : String → Option TokenData) (now : Int)
    (ctxA ctxR : Option String) (transport : FetchRequest → FetchOutcome)
    (creds : List (String × String)) (st : Storage) : TokenResult :=
  let cur_at := currentAccess st
  let cur_rt := currentRefresh st
  let atData := decode_token jwtD cur_at
  if now < atData.exp then
    let pair : AuthPair := ⟨cur_at, cur_rt⟩
    { store := persist clearedStorage (rememberOf creds) pair,
      result := .ok (200, pair), calls := [] }
  else
    let o := tokenAPIRequest creds
    let req := rawFetchRequest o
    match runRawRequest ctxA ctxR o (transport req) with
    | .error e => { store := clearedStorage, result := .error e, calls := [req] }
    | .ok (code, dta) =>
      let pair := extractPair dta
      { store := persist clearedStorage (rememberOf creds) pair,
        result := .ok (code, pair), calls := [req] }

/-- The credential fields built by `login`. -/
def loginCreds (user password : String) (remember : Bool) : List (String × String) :=
  [("username", user), ("password", password),
   ("remember", if remember then "true" else "false"), ("grant_type", "password")]

/-- Translation of `login` (useAPI.ts): a Coordinator invocation with
password-grant credentials. -/
def login (jwtD : String → Option TokenData) (now : Int)
    (transport : FetchRequest → FetchOutcome) (user password : String)
    (remember : Bool) (st : Storage) : TokenResult :=
  runTokenRequest jwtD now (currentAccess st) (currentRefresh st) transport
    (loginCreds user password remember) st

/-- The descriptor of the logout revoke POST. -/
def logoutAPIRequest (rt : String) : APIRequest :=
  { method := "POST", url := "/api/oauth2/logout/",
    headers := some [("Content-Type", "application/x-www-form-urlencoded")],
    params := none,
    body := some (formEncode [("refresh_token", rt), ("grant_type", "refresh_token")]),
    validate := none, validateOptional := none, validateList := none }

/-- Outcome of one `logout` call. -/
structure LogoutResult where
  store : Storage
  result : Except APIError Int
  calls : List FetchRequest
deriving Repr

/-- Translation of `logout` (useAPI.ts): with a truthy stored refresh token
it POSTs the revoke request and — because `await resp` precedes
`clear_tokens()` with no try/finally — clears storage only when that POST
succeeds; without a refresh token it makes no network call, clears storage
and returns a synthetic 204. -/
def logout (transport : FetchRequest → FetchOutcome) (st : Storage) : LogoutResult :=
  let accessToken := currentAccess st
  let refreshToken := currentRefresh st
  if jsTruthy refreshToken then
    let o := logoutAPIRequest (jsStr refreshToken)
    let req := rawFetchRequest o
    match runRawRequest accessToken refreshToken o (transport req) with
    | .error e => { store := st, result := .error e, calls := [req] }
    | .ok (code, _) => { store := clearedStorage, result := .ok code, calls := [req] }
  else
    { store := clearedStorage, result := .ok 204, calls := [] }

/-- The headers synthesized by `request` when the caller supplied none. -/
def authHeaders (accessToken : Option String) (method : String) : List (String × String) :=
  [("Authorization", "Bearer " ++ jsStr accessToken)] ++
    (if method ≠ "GET" then [("Content-Type", "application/json")] else [])

/-- The credential fields built by `request` for the pre-emptive refresh. -/
def refreshCreds (refreshToken : Option String) (lsAccess : Option String) :
    List (String × String) :=
  [("refresh_token", jsStr refreshToken),
   ("remember", if jsTruthy lsAccess then "true" else "false"),
   ("grant_type", "refresh_token")]

/-- Outcome of one `request` call.  `finalOptions` is the caller's descriptor
object as it stands after the call (the source mutates `options.headers` in
place). -/
structure RequestResult where
  store : Storage
  result : Except APIError (Int × JsVal)
  calls : List FetchRequest
  finalOptions : APIRequest

/-- Translation of `request` (useAPI.ts): fails fast without a current access
token; synthesizes `Authorization` (and `Content-Type` for non-GET) when the
caller supplied no headers; pre-emptively refreshes through the Coordinator
when the decoded expiry is strictly within 10 seconds of now and a refresh
token exists, overwriting the `Authorization` header with the Coordinator's
access token; finally delegates to `runRawRequest`.  The hook state
(`accessToken`, `refreshToken`, `tokenData`, `accessTokenLS`) is taken to be
in sync with storage at call time. -/
def request (jwtD : String → Option TokenData) (now : Int)
    (transport : FetchRequest → FetchOutcome) (st : Storage)
    (options : APIRequest) : RequestResult :=
  let accessToken := currentAccess st
  let refreshToken := currentRefresh st
  let tokenData := decode_token jwtD accessToken
  if !jsTruthy accessToken then
    { store := st, result := .error ⟨"Missing access token", 401⟩, calls := [],
      finalOptions := options }
  else
    let o1 := match options.headers with
      | none => { options with headers := some (authHeaders accessToken options.method) }
      | some _ => options
    if decide (tokenData.exp - 10 < now) && jsTruthy refreshToken then
      let creds := refreshCreds refreshToken st.lsAccess
      let tr := runTokenRequest jwtD now accessToken refreshToken transport creds st
      match tr.result with
      | .error e =>
        { store := tr.store, result := .error e, calls := tr.calls, finalOptions := o1 }
      | .ok (_, pair) =>
        let o2 := { o1 with headers := some (hSet (o1.headers.getD []) "Authorization"
                      ("Bearer " ++ jsStr pair.access_token)) }
        let req := rawFetchRequest o2
        { store := tr.store,
          result := runRawRequest accessToken refreshToken o2 (transport req),
          calls := tr.calls ++ [req], finalOptions := o2 }
    else
      let req := rawFetchRequest o1
      { store := st, result := runRawRequest accessToken refreshToken o1 (transport req),
        calls := [req], finalOptions := o1 }

/-- One concurrent credential-acquisition flow: its closure snapshot of the
hook's `accessToken`/`refreshToken` and the credential fields it passes to
the Coordinator. -/
structure Entrant where
  ctxA : Option String
  ctxR : Option String
  creds : List (String × String)

/-- Sequential execution of Coordinator critical sections.  The `async-mutex`
lock serializes every concurrent credential-acquisition flow, so an arbitrary
set of concurrent entrants is modelled as their critical sections running one
after another in some order, each seeing the storage left by the previous
one; the returned list collects every token-endpoint network call issued. -/
def runCoordinatorSeq (jwtD : String → Option TokenData) (now : Int)
    (transport : FetchRequest → FetchOutcome) :
    List Entrant → Storage → Storage × List FetchRequest
  | [], st => (st, [])
  | e :: es, st =>
    let r := runTokenRequest jwtD now e.ctxA e.ctxR transport e.creds st
    let rest := runCoordinatorSeq jwtD now transport es r.store
    (rest.1, r.calls ++ rest.2)

/-- A 200 token-endpoint response body carrying a valid bearer pair. -/
def goodTokenBody (a r : String) : JsVal :=
  .jobj [("access_token", .jstr a), ("refresh_token", .jstr r), ("token_type", .jstr "bearer")]

/-- A successful 200 token-endpoint transport outcome. -/
def goodTokenOutcome (a r : String) : FetchOutcome :=
  .resp ⟨200, "OK", .ok (goodTokenBody a r)⟩

theorem rawRequest_token_good (ctxA ctxR : Option String) (creds : List (String × String))
    (a r : String) :
    runRawRequest ctxA ctxR (tokenAPIRequest creds) (goodTokenOutcome a r) =
      .ok (200, goodTokenBody a r) := rfl

theorem extractPair_good (a r : String) : extractPair (goodTokenBody a r) = ⟨some a, some r⟩ := rfl

theorem persist_cleared (b : Bool) (p : AuthPair) :
    persist clearedStorage b p =
      if b then ⟨some (jsStr p.access_token), some (jsStr p.refresh_token), none, none⟩
      else ⟨none, none, some (jsStr p.access_token), some (jsStr p.refresh_token)⟩ := by
  cases b <;> rfl

theorem currentAccess_persist_cleared (b : Bool) (a : String) (rt : Option String)
    (ha : a ≠ "") :
    currentAccess (persist clearedStorage b ⟨some a, rt⟩) = some a := by
  cases b <;> simp [persist, clearedStorage, currentAccess, jsOrElse, jsTruthy, jsStr, ha]

/-- C9: the token codec `decode_token` is a total function with no side
effects (it is a pure Lean function by construction); for an absent token, an
empty token, or a token on which `jwtDecode` throws, it returns exactly the
zero-valued sentinel claims. -/
theorem decode_token_sentinel (jwtD : String → Option TokenData) (t : Option String)
    (h : t = none ∨ t = some "" ∨ ∃ s, t = some s ∧ jwtD s = none) :
    decode_token jwtD t = nullTokenData := by
  rcases h with rfl | rfl | ⟨s, rfl, hs⟩
  · rfl
  · simp [decode_token]
  · by_cases he : s = ""
    · simp [decode_token, he]
    · simp [decode_token, he, hs]

theorem decode_token_sentinel_witness :
    decode_token (fun _ => none) (some "not-a-jwt") = nullTokenData :=
  decode_token_sentinel (fun _ => none) (some "not-a-jwt")
    (Or.inr (Or.inr ⟨"not-a-jwt", rfl, rfl⟩))

/-- C6 counterexample: a 404 response whose JSON body has no `detail` field
produces `APIError` with the empty message, not the response's status text
`"Not Found"` — the `statusText` fallback claimed by the spec is unreachable
because the not-ok branch throws `APIError(data.detail, code)` first. -/
theorem error_detail_counterexample :
    runRawRequest none none ⟨"GET", "/t", none, none, none, none, none, none⟩
        (.resp ⟨404, "Not Found", .ok (.jobj [])⟩) = .error ⟨"", 404⟩ ∧
      runRawRequest none none ⟨"GET", "/t", none, none, none, none, none, none⟩
        (.resp ⟨404, "Not Found", .ok (.jobj [])⟩) ≠ .error ⟨"Not Found", 404⟩ := by
  refine ⟨rfl, fun h => ?_⟩
  have h2 : (Except.error ⟨"", 404⟩ : Except APIError (Int × JsVal))
      = .error ⟨"Not Found", 404⟩ := by rw [← h]; rfl
  exact (by decide : (⟨"", 404⟩ : APIError) ≠ ⟨"Not Found", 404⟩) (Except.error.inj h2)

/-- C6 (amended): for a response with status ≥ 400 whose body parses to a
JSON object, the raised `APIError` has that status as its code and, as its
message, the body's `detail` field when present as a string and the empty
string when the field is absent (never the status text). -/
theorem error_message_detail (ctxA ctxR : Option String) (o : APIRequest)
    (r : FetchResp) (fs : List (String × JsVal))
    (hs : 400 ≤ r.status) (hj : r.json = .ok (.jobj fs)) :
    (∀ s, jsLookup fs "detail" = some (.jstr s) →
       runRawRequest ctxA ctxR o (.resp r) = .error ⟨s, r.status⟩) ∧
    (jsLookup fs "detail" = none →
       runRawRequest ctxA ctxR o (.resp r) = .error ⟨"", r.status⟩) := by
  have h204 : ¬ r.status = 204 := by omega
  have hok : respOk r.status = false := by
    simp only [respOk, Bool.and_eq_false_iff, decide_eq_false_iff_not, not_le]
    right; omega
  constructor
  · intro s hdet
    simp [runRawRequest, h204, hj, hok, dotDetail, hdet, errMsgOfDetail, errMsgOfDetailVal]
  · intro hdet
    simp [runRawRequest, h204, hj, hok, dotDetail, hdet, errMsgOfDetail]

theorem error_message_detail_witness :
    runRawRequest none none ⟨"GET", "/t", none, none, none, none, none, none⟩
      (.resp ⟨500, "Internal Server Error", .ok (.jobj [("detail", .jstr "boom")])⟩)
      = .error ⟨"boom", 500⟩ :=
  (error_message_detail none none ⟨"GET", "/t", none, none, none, none, none, none⟩
      ⟨500, "Internal Server Error", .ok (.jobj [("detail", .jstr "boom")])⟩
      [("detail", .jstr "boom")] (by decide) rfl).1 "boom" rfl

/-- C5 counterexample: with a stored refresh token and a transport that
rejects the revoke call, `logout` propagates the failure and leaves both
storage scopes untouched — the claimed unconditional clear on the failure
path does not happen (there is no try/finally around `await resp`). -/
theorem logout_failure_counterexample :
    (logout (fun _ => .reject "network down") ⟨some "A", some "R", none, none⟩).store
        = ⟨some "A", some "R", none, none⟩ ∧
      (logout (fun _ => .reject "network down") ⟨some "A", some "R", none, none⟩).result
        = .error ⟨"network down", -1⟩ :=
  ⟨rfl, rfl⟩

/-- C5 (amended): `logout` with no truthy stored refresh token performs no
network call, returns a synthetic 204 and clears both scopes; when the revoke
call (or its status/parse handling) fails, the error propagates and storage
is left unchanged; when it succeeds, both scopes are cleared. -/
theorem logout_clear_semantics (transport : FetchRequest → FetchOutcome) (st : Storage) :
    (jsTruthy (currentRefresh st) = false →
       logout transport st = ⟨clearedStorage, .ok 204, []⟩) ∧
    (∀ e, (logout transport st).result = .error e → (logout transport st).store = st) ∧
    (∀ c, (logout transport st).result = .ok c → (logout transport st).store = clearedStorage) := by
  refine ⟨fun h => by simp [logout, h], ?_, ?_⟩ <;>
  · intro x hx
    by_cases h : jsTruthy (currentRefresh st) = true
    · simp only [logout, h, if_true] at hx ⊢
      split at hx <;> simp_all [logout]
    · simp only [Bool.not_eq_true] at h
      simp [logout, h] at hx ⊢

theorem logout_clear_semantics_witness :
    logout (fun _ => .reject "down") ⟨some "A", none, none, none⟩
      = ⟨clearedStorage, .ok 204, []⟩ :=
  (logout_clear_semantics (fun _ => .reject "down") ⟨some "A", none, none, none⟩).1 rfl

/-- Whether the durable scope holds part of a credential pair. -/
def durableHolds (st : Storage) : Bool := jsTruthy st.lsAccess || jsTruthy st.lsRefresh

/-- Whether the session scope holds part of a credential pair. -/
def sessionHolds (st : Storage) : Bool := jsTruthy st.ssAccess || jsTruthy st.ssRefresh

/-- At most one storage scope holds a non-empty credential pair. -/
def atMostOneScope (st : Storage) : Prop :=
  ¬(durableHolds st = true ∧ sessionHolds st = true)

theorem atMostOne_cleared : atMostOneScope clearedStorage := by
  simp [atMostOneScope, durableHolds, clearedStorage, jsTruthy]

theorem atMostOne_persist_cleared (b : Bool) (p : AuthPair) :
    atMostOneScope (persist clearedStorage b p) := by
  cases b <;>
    simp [atMostOneScope, durableHolds, sessionHolds, persist, clearedStorage, jsTruthy]

theorem coordinator_store_cases (jwtD : String → Option TokenData) (now : Int)
    (ctxA ctxR : Option String) (transport : FetchRequest → FetchOutcome)
    (creds : List (String × String)) (st : Storage) :
    (runTokenRequest jwtD now ctxA ctxR transport creds st).store = clearedStorage ∨
    ∃ p, (runTokenRequest jwtD now ctxA ctxR transport creds st).store
        = persist clearedStorage (rememberOf creds) p := by
  simp only [runTokenRequest]
  split
  · exact Or.inr ⟨_, rfl⟩
  · split
    · exact Or.inl rfl
    · exact Or.inr ⟨_, rfl⟩

theorem logout_store_cases (transport : FetchRequest → FetchOutcome) (st : Storage) :
    (logout transport st).store = st ∨ (logout transport st).store = clearedStorage := by
  unfold logout
  by_cases h : jsTruthy (currentRefresh st) = true
  · simp only [h, if_true]
    split <;> simp
  · simp only [Bool.not_eq_true] at h
    simp [h]

/-- C7: after any Coordinator operation (refresh or login) at most one scope
holds a non-empty credential pair; `logout` preserves that invariant; and
the current-token resolution returns the durable-scope value when it is
non-empty and the session-scope value otherwise. -/
theorem scope_invariant (jwtD : String → Option TokenData) (now : Int)
    (ctxA ctxR : Option String) (transport : FetchRequest → FetchOutcome)
    (creds : List (String × String)) (user password : String) (remember : Bool)
    (st : Storage) :
    atMostOneScope (runTokenRequest jwtD now ctxA ctxR transport creds st).store ∧
    atMostOneScope (login jwtD now transport user password remember st).store ∧
    (atMostOneScope st → atMostOneScope (logout transport st).store) ∧
    (jsTruthy st.lsAccess = true → currentAccess st = st.lsAccess) ∧
    (jsTruthy st.lsAccess = false → currentAccess st = st.ssAccess) := by
  refine ⟨?_, ?_, ?_, ?_, ?_⟩
  · rcases coordinator_store_cases jwtD now ctxA ctxR transport creds st with h | ⟨p, h⟩
    · rw [h]; exact atMostOne_cleared
    · rw [h]; exact atMostOne_persist_cleared _ _
  · unfold login
    rcases coordinator_store_cases jwtD now (currentAccess st) (currentRefresh st) transport
        (loginCreds user password remember) st with h | ⟨p, h⟩
    · rw [h]; exact atMostOne_cleared
    · rw [h]; exact atMostOne_persist_cleared _ _
  · intro hst
    rcases logout_store_cases transport st with h | h
    · rw [h]; exact hst
    · rw [h]; exact atMostOne_cleared
  · intro h; simp [currentAccess, jsOrElse, h]
  · intro h; simp [currentAccess, jsOrElse, h]

theorem scope_invariant_witness :
    atMostOneScope (logout (fun _ => FetchOutcome.reject "down")
      ⟨some "A", some "R", none, none⟩).store :=
  (scope_invariant (fun _ => none) 0 none none (fun _ => FetchOutcome.reject "down")
      [] "u" "p" true ⟨some "A", some "R", none, none⟩).2.2.1
    (by simp [atMostOneScope, durableHolds, sessionHolds, jsTruthy])

/-- C4: every successful Coordinator operation (login or refresh) persists
the resulting token pair to the durable scope when the `remember` credential
field is `'true'` and to the session scope otherwise, leaving the other scope
empty (storage was cleared inside the critical section beforehand). -/
theorem coordinator_persist_scope (jwtD : String → Option TokenData) (now : Int)
    (ctxA ctxR : Option String) (transport : FetchRequest → FetchOutcome)
    (creds : List (String × String)) (st : Storage) (code : Int) (pair : AuthPair)
    (h : (runTokenRequest jwtD now ctxA ctxR transport creds st).result = .ok (code, pair)) :
    (runTokenRequest jwtD now ctxA ctxR transport creds st).store =
      if rememberOf creds then
        ⟨some (jsStr pair.access_token), some (jsStr pair.refresh_token), none, none⟩
      else
        ⟨none, none, some (jsStr pair.access_token), some (jsStr pair.refresh_token)⟩ := by
  by_cases hc : now < (decode_token jwtD (currentAccess st)).exp
  · simp only [runTokenRequest, if_pos hc] at h ⊢
    simp only [Except.ok.injEq, Prod.mk.injEq] at h
    rw [persist_cleared, ← h.2]
  · simp only [runTokenRequest, if_neg hc] at h ⊢
    cases hr : runRawRequest ctxA ctxR (tokenAPIRequest creds)
        (transport (rawFetchRequest (tokenAPIRequest creds))) with
    | error e => simp [hr] at h
    | ok cd =>
      obtain ⟨c, dta⟩ := cd
      simp only [hr, Except.ok.injEq, Prod.mk.injEq] at h ⊢
      rw [persist_cleared, ← h.2]

theorem coordinator_persist_scope_witness :
    (runTokenRequest (fun _ => none) 1000 none none (fun _ => goodTokenOutcome "NEW" "NR")
        [("username", "u"), ("password", "p"), ("remember", "false"), ("grant_type", "password")]
        clearedStorage).store =
      ⟨none, none, some "NEW", some "NR"⟩ := by
  have h := coordinator_persist_scope (fun _ => none) 1000 none none
    (fun _ => goodTokenOutcome "NEW" "NR")
    [("username", "u"), ("password", "p"), ("remember", "false"), ("grant_type", "password")]
    clearedStorage 200 ⟨some "NEW", some "NR"⟩ rfl
  simpa using h

/-- C3: inside the Coordinator's critical section, when the re-read access
token's decoded expiry is strictly in the future, no network call is made and
the re-read pair is returned with status 200; otherwise exactly one POST to
`/api/oauth2/token/` is issued with `Content-Type:
application/x-www-form-urlencoded` and the URL-encoded credential fields as
body, and a parsed 2xx body rejected by the `isAPIAuthTokens` predicate makes
the operation fail with the validation error. -/
theorem coordinator_critical_section (jwtD : String → Option TokenData) (now : Int)
    (ctxA ctxR : Option String) (transport : FetchRequest → FetchOutcome)
    (creds : List (String × String)) (st : Storage) :
    (now < (decode_token jwtD (currentAccess st)).exp →
       (runTokenRequest jwtD now ctxA ctxR transport creds st).calls = [] ∧
       (runTokenRequest jwtD now ctxA ctxR transport creds st).result =
         .ok (200, ⟨currentAccess st, currentRefresh st⟩)) ∧
    (¬ now < (decode_token jwtD (currentAccess st)).exp →
       (runTokenRequest jwtD now ctxA ctxR transport creds st).calls =
         [{ url := "/api/oauth2/token/", method := "POST",
            headers := some [("Content-Type", "application/x-www-form-urlencoded")],
            body := some (formEncode creds) }] ∧
       (∀ r d, transport (tokenFetchReq creds) = .resp r → r.json = .ok d →
          respOk r.status = true → ¬ r.status = 204 → isAPIAuthTokens d = false →
          (runTokenRequest jwtD now ctxA ctxR transport creds st).result =
            .error ⟨"Response validation failed", r.status⟩)) := by
  constructor
  · intro hc
    simp [runTokenRequest, if_pos hc]
  · intro hc
    constructor
    · simp only [runTokenRequest, if_neg hc]
      split <;> rfl
    · intro r d htr hj hok h204 hval
      have hrr : runRawRequest ctxA ctxR (tokenAPIRequest creds)
          (transport (rawFetchRequest (tokenAPIRequest creds)))
          = .error ⟨"Response validation failed", r.status⟩ := by
        rw [show rawFetchRequest (tokenAPIRequest creds) = tokenFetchReq creds from rfl, htr]
        simp [runRawRequest, h204, hj, hok, tokenAPIRequest, hval]
      simp [runTokenRequest, if_neg hc, hrr]

theorem coordinator_critical_section_witness :
    (runTokenRequest (fun s => if s = "A" then some ⟨"u", 0, 2000, ""⟩ else none) 1000
        none none (fun _ => FetchOutcome.reject "unused")
        [("refresh_token", "R"), ("remember", "true"), ("grant_type", "refresh_token")]
        ⟨some "A", some "R", none, none⟩).calls = [] ∧
    (runTokenRequest (fun s => if s = "A" then some ⟨"u", 0, 2000, ""⟩ else none) 1000
        none none (fun _ => FetchOutcome.reject "unused")
        [("refresh_token", "R"), ("remember", "true"), ("grant_type", "refresh_token")]
        ⟨some "A", some "R", none, none⟩).result = .ok (200, ⟨some "A", some "R"⟩) :=
  (coordinator_critical_section (fun s => if s = "A" then some ⟨"u", 0, 2000, ""⟩ else none)
      1000 none none (fun _ => FetchOutcome.reject "unused")
      [("refresh_token", "R"), ("remember", "true"), ("grant_type", "refresh_token")]
      ⟨some "A", some "R", none, none⟩).1 (by decide)

theorem coordinator_fresh_no_call (jwtD : String → Option TokenData) (now : Int)
    (transport : FetchRequest → FetchOutcome) (a : String) (d : TokenData)
    (e : Entrant) (st : Storage)
    (ha : a ≠ "") (hd : jwtD a = some d) (hfresh : now < d.exp)
    (hcur : currentAccess st = some a) :
    (runTokenRequest jwtD now e.ctxA e.ctxR transport e.creds st).calls = [] ∧
    currentAccess (runTokenRequest jwtD now e.ctxA e.ctxR transport e.creds st).store
      = some a := by
  have hdec : decode_token jwtD (currentAccess st) = d := by
    rw [hcur]; simp [decode_token, ha, hd]
  have hc : now < (decode_token jwtD (currentAccess st)).exp := by rw [hdec]; exact hfresh
  constructor
  · simp [runTokenRequest, if_pos hc]
  · simp only [runTokenRequest, if_pos hc]
    rw [hcur]
    exact currentAccess_persist_cleared _ _ _ ha

theorem coordinator_seq_fresh (jwtD : String → Option TokenData) (now : Int)
    (transport : FetchRequest → FetchOutcome) (a : String) (d : TokenData)
    (ha : a ≠ "") (hd : jwtD a = some d) (hfresh : now < d.exp) :
    ∀ (es : List Entrant) (st : Storage), currentAccess st = some a →
      (runCoordinatorSeq jwtD now transport es st).2 = [] := by
  intro es
  induction es with
  | nil => intro st _h; rfl
  | cons e t ih =>
    intro st h
    obtain ⟨hc, hs⟩ := coordinator_fresh_no_call jwtD now transport a d e st ha hd hfresh h
    simp [runCoordinatorSeq, hc, ih _ hs]

theorem coordinator_first_refresh (jwtD : String → Option TokenData) (now : Int)
    (transport : FetchRequest → FetchOutcome) (a r : String)
    (e : Entrant) (st : Storage)
    (ha : a ≠ "")
    (hstale : ¬ now < (decode_token jwtD (currentAccess st)).exp)
    (hresp : transport (tokenFetchReq e.creds) = goodTokenOutcome a r) :
    (runTokenRequest jwtD now e.ctxA e.ctxR transport e.creds st).calls
      = [tokenFetchReq e.creds] ∧
    currentAccess (runTokenRequest jwtD now e.ctxA e.ctxR transport e.creds st).store
      = some a := by
  have hrr : runRawRequest e.ctxA e.ctxR (tokenAPIRequest e.creds)
      (transport (rawFetchRequest (tokenAPIRequest e.creds)))
      = .ok (200, goodTokenBody a r) := by
    rw [show rawFetchRequest (tokenAPIRequest e.creds) = tokenFetchReq e.creds from rfl, hresp]
    exact rawRequest_token_good _ _ _ _ _
  constructor
  · simp [runTokenRequest, if_neg hstale, hrr, tokenFetchReq]
  · simp only [runTokenRequest, if_neg hstale, hrr]
    rw [show extractPair (goodTokenBody a r) = ⟨some a, some r⟩ from rfl]
    exact currentAccess_persist_cleared _ _ _ ha

/-- C1: the `async-mutex` lock serializes every credential-acquisition flow,
so concurrent flows against the same stored tokens execute their Coordinator
critical sections one after another; starting from a store whose current
access token is expired (decoded expiry ≤ now), with the token endpoint
answering with a fresh valid pair, any number of entrants issues at most one
token-endpoint network call in total — every later entrant re-reads the
earlier entrant's freshly persisted tokens and short-circuits. -/
theorem coordinator_single_flight (jwtD : String → Option TokenData) (now : Int)
    (transport : FetchRequest → FetchOutcome) (a r : String) (d : TokenData)
    (entrants : List Entrant) (st0 : Storage)
    (ha : a ≠ "") (hd : jwtD a = some d) (hfresh : now < d.exp)
    (hstale : (decode_token jwtD (currentAccess st0)).exp ≤ now)
    (hresp : ∀ e ∈ entrants, transport (tokenFetchReq e.creds) = goodTokenOutcome a r) :
    ((runCoordinatorSeq jwtD now transport entrants st0).2).length ≤ 1 := by
  cases entrants with
  | nil => simp [runCoordinatorSeq]
  | cons e t =>
    obtain ⟨hc, hs⟩ := coordinator_first_refresh jwtD now transport a r e st0 ha
      (by omega) (hresp e (List.mem_cons_self e t))
    have ht := coordinator_seq_fresh jwtD now transport a d ha hd hfresh t _ hs
    simp [runCoordinatorSeq, hc, ht]

theorem coordinator_single_flight_witness :
    ((runCoordinatorSeq (fun s => if s = "NEW" then some ⟨"u", 0, 2000, "rw"⟩ else none) 1000
        (fun _ => goodTokenOutcome "NEW" "NR")
        [⟨some "OLD", some "REF",
          [("refresh_token", "REF"), ("remember", "true"), ("grant_type", "refresh_token")]⟩,
         ⟨some "OLD", some "REF",
          [("refresh_token", "REF"), ("remember", "false"), ("grant_type", "refresh_token")]⟩,
         ⟨some "OLD", some "REF",
          [("refresh_token", "REF"), ("remember", "true"), ("grant_type", "refresh_token")]⟩]
        ⟨some "OLD", some "REF", none, none⟩).2).length ≤ 1 :=
  coordinator_single_flight (fun s => if s = "NEW" then some ⟨"u", 0, 2000, "rw"⟩ else none)
    1000 (fun _ => goodTokenOutcome "NEW" "NR") "NEW" "NR" ⟨"u", 0, 2000, "rw"⟩ _ _
    (by decide) rfl (by decide) (by decide) (fun _ _ => rfl)

theorem find_set_eq (k v : String) (t : List (String × String)) :
    t.any (fun p => p.1 == k) = true →
      (t.map (fun p => if p.1 == k then (k, v) else p)).find? (fun p => p.1 == k)
        = some (k, v) := by
  induction t with
  | nil => intro h; simp at h
  | cons p t ih =>
    intro h
    rw [List.map_cons]
    by_cases hpe : p.1 = k
    · rw [if_pos (by simpa using hpe), List.find?_cons_of_pos _ (by simp)]
    · have hp' : (p.1 == k) = false := by simpa using hpe
      rw [if_neg (by simpa using hpe), List.find?_cons_of_neg _ (by simp [hp'])]
      exact ih (by simpa [hp'] using h)

theorem find_append_none (k v : String) (t : List (String × String)) :
    t.any (fun p => p.1 == k) = false →
      (t ++ [(k, v)]).find? (fun p => p.1 == k) = some (k, v) := by
  induction t with
  | nil => intro _h; simp [List.find?_cons]
  | cons p t ih =>
    intro h
    have h2 : (p.1 == k) = false ∧ t.any (fun q => q.1 == k) = false := by
      simpa [List.any_cons, Bool.or_eq_false_iff] using h
    simp [List.find?_cons, h2.1, ih h2.2]

theorem hGet_hSet (h : List (String × String)) (k v : String) :
    hGet (hSet h k v) k = some v := by
  unfold hSet
  by_cases hany : h.any (fun p => p.1 == k) = true
  · simp only [hany, if_true]
    unfold hGet
    rw [find_set_eq k v h hany]
    rfl
  · have hany' : h.any (fun p => p.1 == k) = false := by
      rwa [Bool.not_eq_true] at hany
    simp only [hany', Bool.false_eq_true, if_false]
    unfold hGet
    rw [find_append_none k v h hany']
    rfl

theorem request_refresh_path (jwtD : String → Option TokenData) (now : Int)
    (transport : FetchRequest → FetchOutcome) (st : Storage) (o : APIRequest)
    (a rt na nr : String)
    (hcura : currentAccess st = some a) (ha : a ≠ "")
    (hcurr : currentRefresh st = some rt) (hrt : rt ≠ "")
    (hcond : (decode_token jwtD (some a)).exp - 10 < now)
    (hstale : (decode_token jwtD (some a)).exp ≤ now)
    (hresp : transport (tokenFetchReq (refreshCreds (some rt) st.lsAccess))
      = goodTokenOutcome na nr) :
    (request jwtD now transport st o).calls =
      [tokenFetchReq (refreshCreds (some rt) st.lsAccess),
       rawFetchRequest ((request jwtD now transport st o).finalOptions)] ∧
    hGet (((request jwtD now transport st o).finalOptions).headers.getD []) "Authorization"
      = some ("Bearer " ++ na) := by
  have hstale' : ¬ now < (decode_token jwtD (currentAccess st)).exp := by
    rw [hcura]; omega
  have hrr : runRawRequest (some a) (some rt)
      (tokenAPIRequest (refreshCreds (some rt) st.lsAccess))
      (transport (rawFetchRequest (tokenAPIRequest (refreshCreds (some rt) st.lsAccess))))
      = .ok (200, goodTokenBody na nr) := by
    rw [show rawFetchRequest (tokenAPIRequest (refreshCreds (some rt) st.lsAccess))
        = tokenFetchReq (refreshCreds (some rt) st.lsAccess) from rfl, hresp]
    exact rawRequest_token_good _ _ _ _ _
  have htok : runTokenRequest jwtD now (some a) (some rt) transport
      (refreshCreds (some rt) st.lsAccess) st
      = ⟨persist clearedStorage (rememberOf (refreshCreds (some rt) st.lsAccess))
           ⟨some na, some nr⟩,
         .ok (200, ⟨some na, some nr⟩),
         [tokenFetchReq (refreshCreds (some rt) st.lsAccess)]⟩ := by
    simp only [runTokenRequest, if_neg hstale', hrr]
    rw [show extractPair (goodTokenBody na nr) = ⟨some na, some nr⟩ from rfl]
    rfl
  constructor
  · simp [request, hcura, hcurr, htok, hcond, jsTruthy, ha, hrt]
  · simp [request, hcura, hcurr, htok, hcond, jsTruthy, ha, hrt, hGet_hSet, jsStr]

/-- C2 counterexample: an access token whose decoded expiry is exactly
`now + 10` (here 1010 with now = 1000), with a refresh token stored, does NOT
trigger a refresh: the source's strict check `tokenData.exp - 10 <
Date.now() / 1000` is false at the boundary, so the only network call is the
target request, sent with the old token — not the claimed Coordinator
invocation plus newly obtained token. -/
theorem request_boundary_counterexample :
    (request (fun s => if s = "B10" then some ⟨"u", 0, 1010, ""⟩ else none) 1000
        (fun q => if q.url = "/api/oauth2/token/" then goodTokenOutcome "NEW" "NR"
                  else FetchOutcome.resp ⟨200, "OK", .ok (.jobj [])⟩)
        ⟨some "B10", some "REF", none, none⟩
        ⟨"GET", "/t", none, none, none, none, none, none⟩).calls =
      [{ url := "/t", method := "GET",
         headers := some [("Authorization", "Bearer B10")], body := none }] := rfl

/-- C2 (amended): with a current access token decoding to expiry strictly
less than `now + 10` and a truthy current refresh token, `request` invokes
the Coordinator exactly once with `grant_type=refresh_token` and `remember`
set to whether the durable scope holds a truthy access token, and overwrites
the target call's `Authorization` header with the access token the
Coordinator returns.  When the token is already expired (expiry ≤ now) this
is one refresh network call before the target call, which carries the newly
issued token; when the token is still valid for less than 10 seconds
(now < expiry < now + 10) the Coordinator short-circuits on its re-read, so
no refresh network call occurs and the target call reuses the re-read
token.  The boundary expiry = now + 10 triggers nothing (see the
counterexample). -/
theorem request_grace_window_refresh (jwtD : String → Option TokenData) (now : Int)
    (transport : FetchRequest → FetchOutcome) (st : Storage) (o : APIRequest)
    (a rt na nr : String) (d : TokenData)
    (hcura : currentAccess st = some a) (ha : a ≠ "")
    (hcurr : currentRefresh st = some rt) (hrt : rt ≠ "")
    (hd : jwtD a = some d) (hwin : d.exp - 10 < now) :
    (d.exp ≤ now →
       transport (tokenFetchReq (refreshCreds (some rt) st.lsAccess))
         = goodTokenOutcome na nr →
       (request jwtD now transport st o).calls =
         [tokenFetchReq (refreshCreds (some rt) st.lsAccess),
          rawFetchRequest ((request jwtD now transport st o).finalOptions)] ∧
       hGet (((request jwtD now transport st o).finalOptions).headers.getD []) "Authorization"
         = some ("Bearer " ++ na)) ∧
    (now < d.exp →
       (request jwtD now transport st o).calls =
         [rawFetchRequest ((request jwtD now transport st o).finalOptions)] ∧
       hGet (((request jwtD now transport st o).finalOptions).headers.getD []) "Authorization"
         = some ("Bearer " ++ a)) := by
  have hdec : decode_token jwtD (some a) = d := by simp [decode_token, ha, hd]
  constructor
  · intro hexp hresp
    exact request_refresh_path jwtD now transport st o a rt na nr hcura ha hcurr hrt
      (by rw [hdec]; omega) (by rw [hdec]; omega) hresp
  · intro hfresh
    have hwin' : (decode_token jwtD (some a)).exp - 10 < now := by rw [hdec]; omega
    have hsc : now < (decode_token jwtD (currentAccess st)).exp := by
      rw [hcura, hdec]; exact hfresh
    have htok : runTokenRequest jwtD now (some a) (some rt) transport
        (refreshCreds (some rt) st.lsAccess) st
        = ⟨persist clearedStorage (rememberOf (refreshCreds (some rt) st.lsAccess))
             ⟨some a, some rt⟩,
           .ok (200, ⟨some a, some rt⟩), []⟩ := by
      simp only [runTokenRequest, if_pos hsc]
      rw [hcura, hcurr]
    constructor
    · simp [request, hcura, hcurr, htok, hwin', jsTruthy, ha, hrt]
    · simp [request, hcura, hcurr, htok, hwin', jsTruthy, ha, hrt, hGet_hSet, jsStr]

theorem request_grace_window_refresh_witness :
    (request (fun s => if s = "OLD" then some ⟨"u", 0, 500, ""⟩
                       else if s = "NEW" then some ⟨"u", 0, 2000, ""⟩ else none) 1000
        (fun q => if q.url = "/api/oauth2/token/" then goodTokenOutcome "NEW" "NR"
                  else FetchOutcome.resp ⟨200, "OK", .ok (.jobj [])⟩)
        ⟨some "OLD", some "REF", none, none⟩
        ⟨"GET", "/t", none, none, none, none, none, none⟩).calls =
      [tokenFetchReq (refreshCreds (some "REF") (some "OLD")),
       rawFetchRequest ((request (fun s => if s = "OLD" then some ⟨"u", 0, 500, ""⟩
                       else if s = "NEW" then some ⟨"u", 0, 2000, ""⟩ else none) 1000
        (fun q => if q.url = "/api/oauth2/token/" then goodTokenOutcome "NEW" "NR"
                  else FetchOutcome.resp ⟨200, "OK", .ok (.jobj [])⟩)
        ⟨some "OLD", some "REF", none, none⟩
        ⟨"GET", "/t", none, none, none, none, none, none⟩).finalOptions)] :=
  ((request_grace_window_refresh _ 1000 _ ⟨some "OLD", some "REF", none, none⟩
      ⟨"GET", "/t", none, none, none, none, none, none⟩ "OLD" "REF" "NEW" "NR"
      ⟨"u", 0, 500, ""⟩ rfl (by decide) rfl (by decide) rfl (by decide)).1
    (by decide) rfl).1

/-- C10 (implicit): a stored non-empty but undecodable access token decodes
to the zero sentinel (expiry 0), which always falls inside the 10-second
grace window, so with a refresh token stored `request` does not fail
immediately: it takes the refresh path through the Coordinator (one token
POST) and sends the target call with the newly obtained access token. -/
theorem undecodable_token_refresh (jwtD : String → Option TokenData) (now : Int)
    (transport : FetchRequest → FetchOutcome) (st : Storage) (o : APIRequest)
    (a rt na nr : String)
    (hcura : currentAccess st = some a) (ha : a ≠ "") (hbad : jwtD a = none)
    (hcurr : currentRefresh st = some rt) (hrt : rt ≠ "")
    (hnow : 0 ≤ now)
    (hresp : transport (tokenFetchReq (refreshCreds (some rt) st.lsAccess))
      = goodTokenOutcome na nr) :
    (request jwtD now transport st o).calls =
      [tokenFetchReq (refreshCreds (some rt) st.lsAccess),
       rawFetchRequest ((request jwtD now transport st o).finalOptions)] ∧
    hGet (((request jwtD now transport st o).finalOptions).headers.getD []) "Authorization"
      = some ("Bearer " ++ na) := by
  have hdec : decode_token jwtD (some a) = nullTokenData := by
    simp [decode_token, ha, hbad]
  exact request_refresh_path jwtD now transport st o a rt na nr hcura ha hcurr hrt
    (by rw [hdec]; simp [nullTokenData]; omega) (by rw [hdec]; simp [nullTokenData]; omega)
    hresp

theorem undecodable_token_refresh_witness :
    hGet (((request (fun _ => none) 1000
        (fun q => if q.url = "/api/oauth2/token/" then goodTokenOutcome "NEW" "NR"
                  else FetchOutcome.resp ⟨200, "OK", .ok (.jobj [])⟩)
        ⟨some "garbage", some "REF", none, none⟩
        ⟨"GET", "/t", none, none, none, none, none, none⟩).finalOptions).headers.getD [])
        "Authorization" = some ("Bearer " ++ "NEW") :=
  (undecodable_token_refresh (fun _ => none) 1000
      (fun q => if q.url = "/api/oauth2/token/" then goodTokenOutcome "NEW" "NR"
                else FetchOutcome.resp ⟨200, "OK", .ok (.jobj [])⟩)
      ⟨some "garbage", some "REF", none, none⟩
      ⟨"GET", "/t", none, none, none, none, none, none⟩ "garbage" "REF" "NEW" "NR"
      rfl (by decide) rfl rfl (by decide) (by decide) rfl).2

/-- C8 counterexample: a caller descriptor with no headers is mutated by
`request` — after the call the descriptor's `headers` field holds the
synthesized `Authorization` mapping, while the caller passed `none`, so the
claimed immutability of the descriptor object fails. -/
theorem descriptor_mutation_counterexample :
    ((request (fun _ => some ⟨"u", 0, 2000, ""⟩) 1000
        (fun _ => FetchOutcome.resp ⟨200, "OK", .ok (.jobj [])⟩)
        ⟨some "TOK", none, none, none⟩
        ⟨"GET", "/t", none, none, none, none, none, none⟩).finalOptions).headers
      = some [("Authorization", "Bearer TOK")] ∧
    (⟨"GET", "/t", none, none, none, none, none, none⟩ : APIRequest).headers = none :=
  ⟨rfl, rfl⟩

/-- C8 (amended): the descriptor is not immutable — `request` mutates the
caller's object in place, but only in its `headers` field: all non-header
fields are unchanged; with no current token the descriptor is untouched;
when the caller supplied no headers and the refresh path is not taken, the
descriptor acquires exactly the synthesized `Authorization` mapping (plus
`Content-Type: application/json` for non-GET); caller-supplied headers are
untouched off the refresh path; and on a successful refresh the
`Authorization` entry of the (possibly caller-supplied, possibly just
synthesized) headers mapping is overwritten with the Coordinator's access
token.  The dispatched request is built from this mutated descriptor. -/
theorem descriptor_mutation (jwtD : String → Option TokenData) (now : Int)
    (transport : FetchRequest → FetchOutcome) (st : Storage) (o : APIRequest) :
    ((request jwtD now transport st o).finalOptions.method = o.method ∧
     (request jwtD now transport st o).finalOptions.url = o.url ∧
     (request jwtD now transport st o).finalOptions.params = o.params ∧
     (request jwtD now transport st o).finalOptions.body = o.body ∧
     (request jwtD now transport st o).finalOptions.validate = o.validate ∧
     (request jwtD now transport st o).finalOptions.validateOptional = o.validateOptional ∧
     (request jwtD now transport st o).finalOptions.validateList = o.validateList) ∧
    (jsTruthy (currentAccess st) = false →
       (request jwtD now transport st o).finalOptions = o) ∧
    (jsTruthy (currentAccess st) = true → o.headers = none →
       (decide ((decode_token jwtD (currentAccess st)).exp - 10 < now)
          && jsTruthy (currentRefresh st)) = false →
       (request jwtD now transport st o).finalOptions.headers
         = some (authHeaders (currentAccess st) o.method)) ∧
    (∀ hh, jsTruthy (currentAccess st) = true → o.headers = some hh →
       (decide ((decode_token jwtD (currentAccess st)).exp - 10 < now)
          && jsTruthy (currentRefresh st)) = false →
       (request jwtD now transport st o).finalOptions = o) ∧
    (∀ c pair, jsTruthy (currentAccess st) = true →
       (decide ((decode_token jwtD (currentAccess st)).exp - 10 < now)
          && jsTruthy (currentRefresh st)) = true →
       (runTokenRequest jwtD now (currentAccess st) (currentRefresh st) transport
          (refreshCreds (currentRefresh st) st.lsAccess) st).result = .ok (c, pair) →
       (request jwtD now transport st o).finalOptions.headers
         = some (hSet (match o.headers with
                       | none => authHeaders (currentAccess st) o.method
                       | some hh => hh) "Authorization"
                  ("Bearer " ++ jsStr pair.access_token))) := by
  refine ⟨?_, ?_, ?_, ?_, ?_⟩
  · have hcases : (request jwtD now transport st o).finalOptions = o ∨
        ∃ hdrs, (request jwtD now transport st o).finalOptions
          = { o with headers := some hdrs } := by
      simp only [request]
      by_cases hta : jsTruthy (currentAccess st) = true
      · simp only [hta, Bool.not_true, Bool.false_eq_true, if_false]
        cases hh : o.headers with
        | none =>
          split
          · split
            · exact Or.inr ⟨_, rfl⟩
            · exact Or.inr ⟨_, rfl⟩
          · exact Or.inr ⟨_, rfl⟩
        | some hs =>
          split
          · split
            · exact Or.inl rfl
            · exact Or.inr ⟨_, rfl⟩
          · exact Or.inl rfl
      · have hta' : jsTruthy (currentAccess st) = false := by
          rwa [Bool.not_eq_true] at hta
        simp [hta']
    rcases hcases with h | ⟨hdrs, h⟩ <;> rw [h] <;> exact ⟨rfl, rfl, rfl, rfl, rfl, rfl, rfl⟩
  · intro h
    simp [request, h]
  · intro hta hnone hcond
    simp [request, hta, hnone, hcond]
  · intro hh hta hsome hcond
    simp [request, hta, hsome, hcond]
  · intro c pair hta hcond hres
    cases hh : o.headers with
    | none => simp [request, hta, hcond, hres, hh]
    | some hs => simp [request, hta, hcond, hres, hh]

theorem descriptor_mutation_witness :
    (request (fun _ => some ⟨"u", 0, 2000, ""⟩) 1000
        (fun _ => FetchOutcome.resp ⟨200, "OK", .ok (.jobj [])⟩)
        ⟨some "TOK", none, none, none⟩
        ⟨"POST", "/t", none, none, some "b", none, none, none⟩).finalOptions.headers
      = some (authHeaders (currentAccess ⟨some "TOK", none, none, none⟩) "POST") :=
  (descriptor_mutation (fun _ => some ⟨"u", 0, 2000, ""⟩) 1000
      (fun _ => FetchOutcome.resp ⟨200, "OK", .ok (.jobj [])⟩)
      ⟨some "TOK", none, none, none⟩
      ⟨"POST", "/t", none, none, some "b", none, none, none⟩).2.2.1
    (by decide) rfl (by decide)

end UseAPI
